import Mathlib

/-!
Shallow embedding of the dashboard page of the ukfr-learning-app repository
(src/app/dashboard/page.tsx).  JavaScript numbers are modelled as exact
rationals (the counters involved are non-negative integers, modelled as Nat);
JavaScript Math.round is modelled as the half-up rounding on rationals.
Browser local storage is modelled as an association list from string keys to
stored values, newest binding first.  External helpers imported by the page
(the categories list from category-utils, validateAndFixProgress from
progress-validator, the useErrorHandler hook) are not part of the provided
source, so they appear as parameters of the embedded functions.
-/

/-- Per-category progress record stored in UserProgress.categoryProgress. -/
structure CategoryProgressEntry where
  totalQuestions : Nat
  answeredQuestions : Nat
  correctAnswers : Nat
deriving Repr, DecidableEq

/-- The preferences object of UserProgress. -/
structure Preferences where
  showJapaneseInStudy : Bool
  showJapaneseInMock : Bool
  autoReviewIncorrect : Bool
  notificationEnabled : Bool
deriving Repr, DecidableEq

/-- The UserProgress record read from and written to local storage.
Question identifiers and study-session entries are modelled as strings;
incorrectQuestions and overcomeQuestions may be absent (null in JS),
hence Option. -/
structure UserProgress where
  totalQuestionsAnswered : Nat
  correctAnswers : Nat
  categoryProgress : List (String × CategoryProgressEntry)
  studySessions : List String
  incorrectQuestions : Option (List String)
  overcomeQuestions : Option (List String)
  currentStreak : Nat
  lastStudyDate : String
  preferences : Preferences
deriving Repr, DecidableEq

/-- An entry of the categories list imported from category-utils
(modelled abstractly: only the fields the dashboard reads). -/
structure CategoryInfo where
  name : String
  nameJa : Option String
  totalQuestions : Nat
deriving Repr, DecidableEq

/-- JavaScript Math.round on an exact rational: round half up,
Math.round x = floor (x + 1/2). -/
def jsRound (q : ℚ) : ℤ := ⌊q + 1/2⌋

/-- calculateAccuracy (page.tsx lines 119-122): 0 when progress is null or
totalQuestionsAnswered is 0, otherwise
Math.round((correctAnswers / totalQuestionsAnswered) * 100). -/
def calculateAccuracy (progress : Option UserProgress) : ℤ :=
  match progress with
  | none => 0
  | some p =>
    if p.totalQuestionsAnswered = 0 then 0
    else jsRound ((p.correctAnswers : ℚ) / (p.totalQuestionsAnswered : ℚ) * 100)

/-- calculatePassProbability (page.tsx lines 124-129). -/
def calculatePassProbability (progress : Option UserProgress) : String :=
  let accuracy := calculateAccuracy progress
  if accuracy ≥ 70 then "高"
  else if accuracy ≥ 60 then "中"
  else "低"

/-- getStreakStatus (page.tsx lines 131-137): message and color class. -/
def getStreakStatus (progress : Option UserProgress) : String × String :=
  match progress with
  | none => ("学習を始めましょう！", "text-gray-500")
  | some p =>
    if p.currentStreak = 0 then ("今日から始めましょう！", "text-gray-500")
    else if p.currentStreak < 3 then
      (toString p.currentStreak ++ "日連続！", "text-orange-500")
    else if p.currentStreak < 7 then
      (toString p.currentStreak ++ "日連続！素晴らしい！", "text-blue-500")
    else
      (toString p.currentStreak ++ "日連続！すごい！", "text-green-500")

/-- getIncorrectQuestionsCount (page.tsx lines 139-141):
progress?.incorrectQuestions?.length || 0. -/
def getIncorrectQuestionsCount (progress : Option UserProgress) : Nat :=
  match progress with
  | none => 0
  | some p =>
    match p.incorrectQuestions with
    | none => 0
    | some l => l.length

/-- getOvercomeQuestionsCount (page.tsx lines 143-145). -/
def getOvercomeQuestionsCount (progress : Option UserProgress) : Nat :=
  match progress with
  | none => 0
  | some p =>
    match p.overcomeQuestions with
    | none => 0
    | some l => l.length

/-- One entry of the quickActions array (page.tsx lines 158-188); the icon is
recorded by the name of the icon component. -/
structure QuickAction where
  title : String
  description : String
  icon : String
  href : String
  color : String
  disabled : Bool
deriving Repr, DecidableEq

/-- quickActions (page.tsx lines 158-188).  An absent disabled field in the
object literal is falsy in JS, modelled as false. -/
def quickActions (progress : Option UserProgress) : List QuickAction :=
  [ { title := "カテゴリ別学習"
    , description := "各カテゴリから10問出題"
    , icon := "Target"
    , href := "/study?mode=category"
    , color := "bg-indigo-500"
    , disabled := false }
  , { title := "Mock試験"
    , description := "本番形式で実力チェック"
    , icon := "Clock"
    , href := "/study?mode=mock"
    , color := "bg-emerald-500"
    , disabled := false }
  , { title := "間違えた問題を復習"
    , description := toString (getIncorrectQuestionsCount progress) ++ "問の復習が可能"
    , icon := "AlertCircle"
    , href := "/study/session?mode=review"
    , color := "bg-orange-500"
    , disabled := getIncorrectQuestionsCount progress == 0 }
  , { title := "問題リスト"
    , description := "カテゴリ別の問題一覧"
    , icon := "List"
    , href := "/questions"
    , color := "bg-purple-500"
    , disabled := false } ]

/-- The href actually rendered for a quick action
(page.tsx line 343: action.disabled ? "#" : action.href). -/
def renderedHref (a : QuickAction) : String :=
  if a.disabled then "#" else a.href

/-- JavaScript String.prototype.includes: substring containment, modelled
on the underlying character lists. -/
def strIncludes (s pat : String) : Bool := decide (pat.data <:+: s.data)

/-- studyCategories (page.tsx line 213):
categories.filter(c => !c.name.includes("Mock")). -/
def studyCategories (cats : List CategoryInfo) : List CategoryInfo :=
  cats.filter fun c => !(strIncludes c.name "Mock")

/-- mockCategories (page.tsx line 214):
categories.filter(c => c.name.includes("Mock")). -/
def mockCategories (cats : List CategoryInfo) : List CategoryInfo :=
  cats.filter fun c => strIncludes c.name "Mock"

/-- Per-category progress percentage in the study-category rendering
(page.tsx lines 367-369). -/
def studyCategoryPercentage (d : CategoryProgressEntry) : ℤ :=
  if d.totalQuestions > 0 then
    jsRound ((d.answeredQuestions : ℚ) / (d.totalQuestions : ℚ) * 100)
  else 0

/-- Per-category accuracy in the study-category rendering
(page.tsx lines 370-372). -/
def studyCategoryAccuracy (d : CategoryProgressEntry) : ℤ :=
  if d.answeredQuestions > 0 then
    jsRound ((d.correctAnswers : ℚ) / (d.answeredQuestions : ℚ) * 100)
  else 0

/-- Per-category progress percentage in the mock-category rendering
(page.tsx lines 410-412), textually identical to the study one. -/
def mockCategoryPercentage (d : CategoryProgressEntry) : ℤ :=
  if d.totalQuestions > 0 then
    jsRound ((d.answeredQuestions : ℚ) / (d.totalQuestions : ℚ) * 100)
  else 0

/-- Per-category accuracy in the mock-category rendering
(page.tsx lines 413-415). -/
def mockCategoryAccuracy (d : CategoryProgressEntry) : ℤ :=
  if d.answeredQuestions > 0 then
    jsRound ((d.correctAnswers : ℚ) / (d.answeredQuestions : ℚ) * 100)
  else 0

/-- loadMockExamHistory, storage-to-state part (page.tsx lines 147-156):
(safeLocalStorage.getItem(historyKey) || []).slice(-5).reverse().
slice(-5) keeps the last min(5, length) elements. -/
def loadMockExamHistory {α : Type} (stored : Option (List α)) : List α :=
  let history := stored.getD []
  (history.drop (history.length - 5)).reverse

/-- initialCategoryProgress (page.tsx lines 84-91): one entry per category
with the category total and zero answered/correct counts. -/
def initialCategoryProgress (cats : List CategoryInfo) :
    List (String × CategoryProgressEntry) :=
  cats.map fun c =>
    (c.name, { totalQuestions := c.totalQuestions
             , answeredQuestions := 0
             , correctAnswers := 0 })

/-- initialProgress (page.tsx lines 93-108). -/
def initialProgress (cats : List CategoryInfo) : UserProgress where
  totalQuestionsAnswered := 0
  correctAnswers := 0
  categoryProgress := initialCategoryProgress cats
  studySessions := []
  incorrectQuestions := some []
  overcomeQuestions := some []
  currentStreak := 0
  lastStudyDate := ""
  preferences :=
    { showJapaneseInStudy := true
    , showJapaneseInMock := false
    , autoReviewIncorrect := true
    , notificationEnabled := false }

/-- The component state touched by loadUserProgress: the progress and loading
React states, messages reported through handleError, and the storage.
The store field is the local storage restricted to UserProgress values,
modelled as an association list with the newest binding first (setItem
conses, getItem is the first lookup). -/
structure DashboardState where
  progress : Option UserProgress
  loading : Bool
  errors : List String
  store : List (String × UserProgress)
deriving DecidableEq

/-- The generic message passed to handleError (page.tsx line 113). -/
def genericLoadErrorMessage : String := "学習進捗の読み込みに失敗しました"

/-- loadUserProgress (page.tsx lines 72-117).  validate stands for
validateAndFixProgress and cats for the imported categories list, neither of
which is in the provided source.  throws is some e when the storage read
raises (the one fallible operation of the try block); the catch branch then
reports the generic message through handleError and nothing else, and the
finally branch clears loading in every outcome. -/
def loadUserProgress (validate : UserProgress → UserProgress)
    (cats : List CategoryInfo) (key : String) (throws : Option String)
    (s : DashboardState) : DashboardState :=
  let s1 : DashboardState := { s with loading := true }
  match throws with
  | some _ =>
    { s1 with errors := genericLoadErrorMessage :: s1.errors, loading := false }
  | none =>
    match s1.store.lookup key with
    | some parsedProgress =>
      { s1 with progress := some (validate parsedProgress), loading := false }
    | none =>
      let ip := initialProgress cats
      { s1 with progress := some ip
              , store := (key, ip) :: s1.store
              , loading := false }

/-- A concrete UserProgress used to instantiate the theorems below. -/
def sampleProgress : UserProgress where
  totalQuestionsAnswered := 3
  correctAnswers := 2
  categoryProgress := [("Regulation", { totalQuestions := 10, answeredQuestions := 4, correctAnswers := 3 })]
  studySessions := ["s1"]
  incorrectQuestions := some ["q1"]
  overcomeQuestions := some []
  currentStreak := 5
  lastStudyDate := "2025-01-01"
  preferences :=
    { showJapaneseInStudy := true
    , showJapaneseInMock := false
    , autoReviewIncorrect := true
    , notificationEnabled := false }

/-- A concrete categories list used to instantiate the theorems below. -/
def sampleCatList : List CategoryInfo :=
  [ { name := "Regulation", nameJa := some "規制", totalQuestions := 10 }
  , { name := "Mock Exam 1", nameJa := none, totalQuestions := 75 } ]

/-- A concrete dashboard state with empty storage. -/
def emptyDashboardState : DashboardState where
  progress := none
  loading := true
  errors := []
  store := []

theorem jsRound_abs_sub_le (q : ℚ) : |(jsRound q : ℚ) - q| ≤ 1/2 := by
  unfold jsRound
  rw [abs_le]
  constructor
  · have h := Int.lt_floor_add_one (q + 1/2)
    push_cast at h ⊢
    linarith
  · have h := Int.floor_le (q + 1/2)
    push_cast at h ⊢
    linarith

theorem jsRound_nearest (q : ℚ) (m : ℤ) :
    |(jsRound q : ℚ) - q| ≤ |(m : ℚ) - q| := by
  have hk := jsRound_abs_sub_le q
  have h1 := Int.floor_le (q + 1/2)
  have h2 := Int.lt_floor_add_one (q + 1/2)
  rcases lt_trichotomy m (jsRound q) with hm | hm | hm
  · have hmq : (m : ℚ) ≤ (jsRound q : ℚ) - 1 := by
      have hle : m ≤ jsRound q - 1 := by omega
      exact_mod_cast hle
    have hflo : ((jsRound q : ℤ) : ℚ) ≤ q + 1/2 := by
      unfold jsRound
      exact_mod_cast h1
    calc |(jsRound q : ℚ) - q| ≤ 1/2 := hk
      _ ≤ q - (m : ℚ) := by linarith
      _ = -((m : ℚ) - q) := by ring
      _ ≤ |(m : ℚ) - q| := neg_le_abs _
  · rw [hm]
  · have hmq : (jsRound q : ℚ) + 1 ≤ (m : ℚ) := by
      have hle : jsRound q + 1 ≤ m := hm
      exact_mod_cast hle
    have hflo : q + 1/2 < ((jsRound q : ℤ) : ℚ) + 1 := by
      unfold jsRound
      exact_mod_cast h2
    calc |(jsRound q : ℚ) - q| ≤ 1/2 := hk
      _ ≤ (m : ℚ) - q := by linarith
      _ ≤ |(m : ℚ) - q| := le_abs_self _

/-- C1: calculateAccuracy returns 0 for null progress and for zero
totalQuestionsAnswered; for positive totalQuestionsAnswered it returns
Math.round of the exact rational (correctAnswers / totalQuestionsAnswered)
times 100, which is an integer nearest to that rational. -/
theorem calculateAccuracy_correct :
    calculateAccuracy none = 0 ∧
    (∀ p : UserProgress, p.totalQuestionsAnswered = 0 →
      calculateAccuracy (some p) = 0) ∧
    (∀ p : UserProgress, 0 < p.totalQuestionsAnswered →
      calculateAccuracy (some p) =
        jsRound ((p.correctAnswers : ℚ) / (p.totalQuestionsAnswered : ℚ) * 100) ∧
      |(calculateAccuracy (some p) : ℚ) -
        (p.correctAnswers : ℚ) / (p.totalQuestionsAnswered : ℚ) * 100| ≤ 1/2 ∧
      (∀ m : ℤ,
        |(calculateAccuracy (some p) : ℚ) -
          (p.correctAnswers : ℚ) / (p.totalQuestionsAnswered : ℚ) * 100| ≤
        |(m : ℚ) - (p.correctAnswers : ℚ) / (p.totalQuestionsAnswered : ℚ) * 100|)) := by
  refine ⟨rfl, ?_, ?_⟩
  · intro p h
    simp [calculateAccuracy, h]
  · intro p h
    have hne : ¬ p.totalQuestionsAnswered = 0 := by omega
    have heq : calculateAccuracy (some p) =
        jsRound ((p.correctAnswers : ℚ) / (p.totalQuestionsAnswered : ℚ) * 100) := by
      simp [calculateAccuracy, hne]
    refine ⟨heq, ?_, ?_⟩
    · rw [heq]
      exact jsRound_abs_sub_le _
    · intro m
      rw [heq]
      exact jsRound_nearest _ m

/-- Witness for C1 at the concrete sampleProgress (2 correct of 3). -/
theorem calculateAccuracy_correct_witness :
    0 < sampleProgress.totalQuestionsAnswered ∧
    |(calculateAccuracy (some sampleProgress) : ℚ) -
      (sampleProgress.correctAnswers : ℚ) /
        (sampleProgress.totalQuestionsAnswered : ℚ) * 100| ≤ 1/2 :=
  ⟨by decide, (calculateAccuracy_correct.2.2 sampleProgress (by decide)).2.1⟩

/-- C2: every percentage derivation on the dashboard guards its division:
calculateAccuracy returns 0 when totalQuestionsAnswered is 0 (or progress is
null), the per-category progress percentage is 0 when the category total is 0,
and the per-category accuracy is 0 when the answered count is 0, in both the
study-category and mock-category renderings. -/
theorem dashboard_division_guards :
    calculateAccuracy none = 0 ∧
    (∀ p : UserProgress, p.totalQuestionsAnswered = 0 →
      calculateAccuracy (some p) = 0) ∧
    (∀ d : CategoryProgressEntry, d.totalQuestions = 0 →
      studyCategoryPercentage d = 0) ∧
    (∀ d : CategoryProgressEntry, d.answeredQuestions = 0 →
      studyCategoryAccuracy d = 0) ∧
    (∀ d : CategoryProgressEntry, d.totalQuestions = 0 →
      mockCategoryPercentage d = 0) ∧
    (∀ d : CategoryProgressEntry, d.answeredQuestions = 0 →
      mockCategoryAccuracy d = 0) := by
  refine ⟨rfl, ?_, ?_, ?_, ?_, ?_⟩ <;> intro x h
  · simp [calculateAccuracy, h]
  · simp [studyCategoryPercentage, h]
  · simp [studyCategoryAccuracy, h]
  · simp [mockCategoryPercentage, h]
  · simp [mockCategoryAccuracy, h]

/-- Witness for C2 at the all-zero category entry. -/
theorem dashboard_division_guards_witness :
    studyCategoryPercentage ⟨0, 0, 0⟩ = 0 ∧ mockCategoryAccuracy ⟨0, 0, 0⟩ = 0 :=
  ⟨dashboard_division_guards.2.2.1 ⟨0, 0, 0⟩ rfl,
   dashboard_division_guards.2.2.2.2.2 ⟨0, 0, 0⟩ rfl⟩

/-- C3: calculatePassProbability yields exactly three bands of the derived
accuracy: the high band iff accuracy is at least 70, the middle band iff
accuracy is in the interval from 60 inclusive to 70 exclusive, and the low
band iff accuracy is strictly below 60. -/
theorem calculatePassProbability_bands (progress : Option UserProgress) :
    (calculatePassProbability progress = "高" ↔
      70 ≤ calculateAccuracy progress) ∧
    (calculatePassProbability progress = "中" ↔
      60 ≤ calculateAccuracy progress ∧ calculateAccuracy progress < 70) ∧
    (calculatePassProbability progress = "低" ↔
      calculateAccuracy progress < 60) := by
  unfold calculatePassProbability
  dsimp only
  split_ifs with h1 h2
  · exact ⟨iff_of_true rfl h1,
      iff_of_false (by decide) (by omega),
      iff_of_false (by decide) (by omega)⟩
  · exact ⟨iff_of_false (by decide) (by omega),
      iff_of_true rfl ⟨h2, by omega⟩,
      iff_of_false (by decide) (by omega)⟩
  · exact ⟨iff_of_false (by decide) (by omega),
      iff_of_false (by decide) (by omega),
      iff_of_true rfl (by omega)⟩

/-- Witness for C3 at null progress: accuracy 0, band low. -/
theorem calculatePassProbability_bands_witness :
    calculatePassProbability none = "低" :=
  (calculatePassProbability_bands none).2.2.mpr (by decide)

/-- C6: getStreakStatus maps the streak through four exhaustive, mutually
exclusive cases (null-or-zero gray prompt, 1 to 2 orange, 3 to 6 blue, 7 and
above green), and for every positive streak the message contains the streak
number. -/
theorem getStreakStatus_cases :
    getStreakStatus none = ("学習を始めましょう！", "text-gray-500") ∧
    ∀ p : UserProgress,
      (p.currentStreak = 0 →
        getStreakStatus (some p) = ("今日から始めましょう！", "text-gray-500")) ∧
      (1 ≤ p.currentStreak → p.currentStreak ≤ 2 →
        getStreakStatus (some p) =
          (toString p.currentStreak ++ "日連続！", "text-orange-500")) ∧
      (3 ≤ p.currentStreak → p.currentStreak ≤ 6 →
        getStreakStatus (some p) =
          (toString p.currentStreak ++ "日連続！素晴らしい！", "text-blue-500")) ∧
      (7 ≤ p.currentStreak →
        getStreakStatus (some p) =
          (toString p.currentStreak ++ "日連続！すごい！", "text-green-500")) ∧
      (1 ≤ p.currentStreak →
        ∃ s t : String,
          (getStreakStatus (some p)).1 = s ++ toString p.currentStreak ++ t) := by
  refine ⟨rfl, ?_⟩
  intro p
  refine ⟨?_, ?_, ?_, ?_, ?_⟩
  · intro h0
    simp [getStreakStatus, h0]
  · intro h1 h2
    have hne : ¬ p.currentStreak = 0 := by omega
    have hlt : p.currentStreak < 3 := by omega
    simp [getStreakStatus, hne, hlt]
  · intro h3 h6
    have hne : ¬ p.currentStreak = 0 := by omega
    have hge : ¬ p.currentStreak < 3 := by omega
    have hlt : p.currentStreak < 7 := by omega
    simp [getStreakStatus, hne, hge, hlt]
  · intro h7
    have hne : ¬ p.currentStreak = 0 := by omega
    have hge3 : ¬ p.currentStreak < 3 := by omega
    have hge7 : ¬ p.currentStreak < 7 := by omega
    simp [getStreakStatus, hne, hge3, hge7]
  · intro h1
    have hne : ¬ p.currentStreak = 0 := by omega
    by_cases h3 : p.currentStreak < 3
    · exact ⟨"", "日連続！", by simp [getStreakStatus, hne, h3]⟩
    · by_cases h7 : p.currentStreak < 7
      · exact ⟨"", "日連続！素晴らしい！", by simp [getStreakStatus, hne, h3, h7]⟩
      · exact ⟨"", "日連続！すごい！", by simp [getStreakStatus, hne, h3, h7]⟩

/-- Witness for C6 at sampleProgress (streak 5: the blue band). -/
theorem getStreakStatus_cases_witness :
    getStreakStatus (some sampleProgress) = ("5日連続！素晴らしい！", "text-blue-500") :=
  ((getStreakStatus_cases.2 sampleProgress).2.2.1 (by decide) (by decide)).trans
    (by decide)

/-- C7: the quick-action list always has exactly four entries with the four
study-mode targets; the review-incorrect action is disabled iff the incorrect
count is 0, its description shows that count, and a disabled action renders
the link target as the hash placeholder while an enabled one keeps its href. -/
theorem quickActions_spec (progress : Option UserProgress) :
    (quickActions progress).length = 4 ∧
    (quickActions progress).map QuickAction.href =
      ["/study?mode=category", "/study?mode=mock",
       "/study/session?mode=review", "/questions"] ∧
    (∃ a : QuickAction, (quickActions progress)[2]? = some a ∧
      a.title = "間違えた問題を復習" ∧
      a.description =
        toString (getIncorrectQuestionsCount progress) ++ "問の復習が可能" ∧
      (a.disabled = true ↔ getIncorrectQuestionsCount progress = 0)) ∧
    (∀ a ∈ quickActions progress, a.disabled = true → renderedHref a = "#") ∧
    (∀ a ∈ quickActions progress, a.disabled = false →
      renderedHref a = a.href) := by
  refine ⟨rfl, rfl, ?_, ?_, ?_⟩
  · refine ⟨_, rfl, rfl, rfl, ?_⟩
    simp [quickActions]
  · intro a ha hd
    simp [quickActions] at ha
    rcases ha with h | h | h | h <;> subst h <;> simp_all [renderedHref]
  · intro a ha hd
    simp [quickActions] at ha
    rcases ha with h | h | h | h <;> subst h <;> simp_all [renderedHref]

/-- Witness for C7 at null progress: the review action is disabled (count 0)
and its rendered target is the hash placeholder. -/
theorem quickActions_spec_witness :
    ∃ a : QuickAction, (quickActions none)[2]? = some a ∧
      a.disabled = true ∧ renderedHref a = "#" := by
  obtain ⟨a, hget, -, -, hiff⟩ := (quickActions_spec none).2.2.1
  have hmem : a ∈ quickActions none := by
    simp [quickActions] at hget ⊢
    simp [← hget]
  have hd : a.disabled = true := hiff.mpr (by decide)
  exact ⟨a, hget, hd, ((quickActions_spec none).2.2.2.1 a hmem hd)⟩

/-- C8: loadMockExamHistory displays the last min(5, length) stored entries
in reverse order (most recent first): the displayed list has length
min 5 (stored length), its reverse is a suffix of the stored list, and a
missing stored value yields the empty list. -/
theorem loadMockExamHistory_spec {α : Type} (stored : Option (List α)) :
    (loadMockExamHistory stored).length = min 5 (stored.getD []).length ∧
    (loadMockExamHistory stored).reverse <:+ stored.getD [] ∧
    loadMockExamHistory (none : Option (List α)) = [] := by
  refine ⟨?_, ?_, rfl⟩
  · simp [loadMockExamHistory]
    omega
  · simp only [loadMockExamHistory, List.reverse_reverse]
    exact List.drop_suffix _ _

/-- Witness for C8 at a concrete six-element stored history. -/
theorem loadMockExamHistory_spec_witness :
    (loadMockExamHistory (some [1, 2, 3, 4, 5, 6])).length =
      min 5 ((some [1, 2, 3, 4, 5, 6] : Option (List ℕ)).getD []).length :=
  (loadMockExamHistory_spec (some [1, 2, 3, 4, 5, 6])).1

/-- C10: whenever correctAnswers is at most totalQuestionsAnswered the
derived accuracy lies in the closed interval from 0 to 100; the freshly
initialized progress yields accuracy 0 and pass probability in the low band. -/
theorem calculateAccuracy_range :
    (∀ p : UserProgress, p.correctAnswers ≤ p.totalQuestionsAnswered →
      0 ≤ calculateAccuracy (some p) ∧ calculateAccuracy (some p) ≤ 100) ∧
    (∀ cats : List CategoryInfo,
      calculateAccuracy (some (initialProgress cats)) = 0 ∧
      calculatePassProbability (some (initialProgress cats)) = "低") := by
  constructor
  · intro p h
    by_cases ht : p.totalQuestionsAnswered = 0
    · simp [calculateAccuracy, ht]
    · have htpos : (0 : ℚ) < (p.totalQuestionsAnswered : ℚ) := by
        exact_mod_cast Nat.pos_of_ne_zero ht
      have hq0 : (0 : ℚ) ≤
          (p.correctAnswers : ℚ) / (p.totalQuestionsAnswered : ℚ) * 100 := by
        positivity
      have hq100 : (p.correctAnswers : ℚ) / (p.totalQuestionsAnswered : ℚ) * 100
          ≤ 100 := by
        have hdiv : (p.correctAnswers : ℚ) / (p.totalQuestionsAnswered : ℚ) ≤ 1 := by
          rw [div_le_one htpos]
          exact_mod_cast h
        nlinarith
      have hacc : calculateAccuracy (some p) =
          jsRound ((p.correctAnswers : ℚ) / (p.totalQuestionsAnswered : ℚ) * 100) := by
        simp [calculateAccuracy, ht]
      rw [hacc]
      unfold jsRound
      constructor
      · exact Int.le_floor.mpr (by push_cast; linarith)
      · have : ⌊(p.correctAnswers : ℚ) / (p.totalQuestionsAnswered : ℚ) * 100 + 1/2⌋
            < 101 := Int.floor_lt.mpr (by push_cast; linarith)
        omega
  · intro cats
    exact ⟨rfl, rfl⟩

/-- Witness for C10 at sampleProgress (2 of 3 answered correctly). -/
theorem calculateAccuracy_range_witness :
    0 ≤ calculateAccuracy (some sampleProgress) ∧
      calculateAccuracy (some sampleProgress) ≤ 100 :=
  calculateAccuracy_range.1 sampleProgress (by decide)

/-- C9: studyCategories and mockCategories partition the categories list:
their concatenation is a permutation of it (every category lands in exactly
one list, counted with multiplicity), membership in mockCategories holds iff
the name contains the Mock substring, and each list is a sublist of the
original, hence preserves its relative order. -/
theorem categories_partition (cats : List CategoryInfo) :
    (mockCategories cats ++ studyCategories cats).Perm cats ∧
    (∀ c : CategoryInfo,
      (studyCategories cats).count c + (mockCategories cats).count c =
        cats.count c) ∧
    (∀ c : CategoryInfo,
      c ∈ mockCategories cats ↔ c ∈ cats ∧ strIncludes c.name "Mock" = true) ∧
    (∀ c : CategoryInfo,
      c ∈ studyCategories cats ↔ c ∈ cats ∧ strIncludes c.name "Mock" = false) ∧
    (studyCategories cats).Sublist cats ∧ (mockCategories cats).Sublist cats := by
  have hperm : (mockCategories cats ++ studyCategories cats).Perm cats :=
    List.filter_append_perm _ cats
  refine ⟨hperm, ?_, ?_, ?_, List.filter_sublist _, List.filter_sublist _⟩
  · intro c
    have hc := hperm.count_eq c
    rw [List.count_append] at hc
    omega
  · intro c
    simp [mockCategories, List.mem_filter]
  · intro c
    simp [studyCategories, List.mem_filter]

/-- Witness for C9: in the concrete sample list, the Mock category lands in
mockCategories. -/
theorem categories_partition_witness :
    ({ name := "Mock Exam 1", nameJa := none, totalQuestions := 75 } :
      CategoryInfo) ∈ mockCategories sampleCatList :=
  ((categories_partition sampleCatList).2.2.1 _).mpr ⟨by decide, by decide⟩

/-- C4: with no stored entry under the key, loadUserProgress builds the fresh
all-zero UserProgress with one categoryProgress entry per category, displays
it and writes it back under the same key; with a stored entry, the validated
value is displayed and the storage is left untouched. -/
theorem loadUserProgress_spec (validate : UserProgress → UserProgress)
    (cats : List CategoryInfo) (key : String) (s : DashboardState) :
    (s.store.lookup key = none →
      loadUserProgress validate cats key none s =
        { s with progress := some (initialProgress cats)
               , store := (key, initialProgress cats) :: s.store
               , loading := false } ∧
      (initialProgress cats).totalQuestionsAnswered = 0 ∧
      (initialProgress cats).correctAnswers = 0 ∧
      (initialProgress cats).currentStreak = 0 ∧
      (initialProgress cats).studySessions = [] ∧
      (initialProgress cats).incorrectQuestions = some [] ∧
      (initialProgress cats).overcomeQuestions = some [] ∧
      (initialProgress cats).categoryProgress.map Prod.fst =
        cats.map CategoryInfo.name ∧
      (∀ e ∈ (initialProgress cats).categoryProgress,
        e.2.answeredQuestions = 0 ∧ e.2.correctAnswers = 0)) ∧
    (∀ p : UserProgress, s.store.lookup key = some p →
      loadUserProgress validate cats key none s =
        { s with progress := some (validate p), loading := false }) := by
  constructor
  · intro h
    refine ⟨?_, rfl, rfl, rfl, rfl, rfl, rfl, ?_, ?_⟩
    · simp [loadUserProgress, h]
    · simp [initialProgress, initialCategoryProgress]
    · intro e he
      simp [initialProgress, initialCategoryProgress] at he
      obtain ⟨c, -, rfl⟩ := he
      exact ⟨rfl, rfl⟩
  · intro p h
    simp [loadUserProgress, h]

/-- Witness for C4: loading against an empty storage creates and stores the
fresh progress for the sample categories. -/
theorem loadUserProgress_spec_witness :
    loadUserProgress id sampleCatList "userProgress_alice" none
        emptyDashboardState =
      { emptyDashboardState with
          progress := some (initialProgress sampleCatList)
        , store := [("userProgress_alice", initialProgress sampleCatList)]
        , loading := false } :=
  ((loadUserProgress_spec id sampleCatList "userProgress_alice"
      emptyDashboardState).1 rfl).1

/-- C5: when the storage read throws, the catch branch only reports the
generic message through handleError: the progress state and the storage are
unchanged, and in every outcome (success or failure) the finally branch sets
loading to false. -/
theorem loadUserProgress_error_handling (validate : UserProgress → UserProgress)
    (cats : List CategoryInfo) (key : String) (s : DashboardState) :
    (∀ e : String,
      (loadUserProgress validate cats key (some e) s).progress = s.progress ∧
      (loadUserProgress validate cats key (some e) s).store = s.store ∧
      (loadUserProgress validate cats key (some e) s).errors =
        genericLoadErrorMessage :: s.errors) ∧
    (∀ throws : Option String,
      (loadUserProgress validate cats key throws s).loading = false) := by
  constructor
  · intro e
    exact ⟨rfl, rfl, rfl⟩
  · intro throws
    cases throws with
    | some e => rfl
    | none =>
      cases h : s.store.lookup key with
      | some p => simp [loadUserProgress, h]
      | none => simp [loadUserProgress, h]

/-- Witness for C5: a throwing load against the empty state leaves progress
null and ends with loading false. -/
theorem loadUserProgress_error_handling_witness :
    (loadUserProgress id sampleCatList "userProgress_alice" (some "boom")
        emptyDashboardState).progress = emptyDashboardState.progress ∧
    (loadUserProgress id sampleCatList "userProgress_alice" (some "boom")
        emptyDashboardState).loading = false :=
  ⟨((loadUserProgress_error_handling id sampleCatList "userProgress_alice"
      emptyDashboardState).1 "boom").1,
   (loadUserProgress_error_handling id sampleCatList "userProgress_alice"
      emptyDashboardState).2 (some "boom")⟩
